import Mathlib

/-!
Shallow embedding of the Skill Sphere AI tutor server (Express routes in
`server/routes.ts`, storage layer in `server/storage.ts`, schema in
`shared/schema.ts`, and the mentor chat page in
`client/src/pages/MentorPage.tsx`).

Conventions of the embedding:
* JavaScript numbers arriving from JSON bodies are modelled as `ℚ`
  (JSON cannot encode NaN or Infinity); a JS arithmetic result that is
  NaN (such as `0 / 0 * 100`) is modelled as `none : Option ℚ`.
* Absent / `undefined` request fields are `none`; the JS truthiness test
  `!x` on a string field is false exactly for a present non-empty string,
  and on an array field it is false for every present array (an empty
  array is truthy in JavaScript).
* The relational store is modelled as in-memory lists kept in insertion
  order; `INSERT` appends, and a `SELECT ... ORDER BY x DESC` over an
  append-only table with `x` defaulted to the insertion time is the
  reverse of the filtered list.  A `SELECT ... WHERE` with no
  `ORDER BY` (as in `DbStorage.getUserSkillLevels`) returns the
  matching rows in an order the engine does not specify: where a proved
  property is insensitive to that order the filtered list is used
  directly, and where the order matters it is an explicit parameter
  ranging over the permutations of the matching rows
  (`getUserSkillLevelsOrdered`).
* Row ids and `defaultNow()` timestamps are supplied as explicit
  parameters (`freshId`, `now`).
* Calls to the external generative text service are a parameter of each
  handler: `none` (or a dedicated `failure` constructor) models a throw
  (timeout, HTTP error, `JSON.parse` failure), `some v` models a
  successfully parsed payload `v`.
-/

namespace SkillSphere

/-- Skill levels stored in `domain_skill_levels.skill_level`
(`"Beginner" | "Intermediate" | "Advanced"` in the TypeScript source). -/
inductive SkillLevel
  | beginner
  | intermediate
  | advanced
deriving DecidableEq, Repr

/-- The string stored in the database for a skill level. -/
def SkillLevel.toName : SkillLevel → String
  | .beginner => "Beginner"
  | .intermediate => "Intermediate"
  | .advanced => "Advanced"

/-- Skill-level determination from `POST /api/quiz/submit`
(routes.ts): `let skillLevel = "Beginner"; if (percentage >= 70)
skillLevel = "Advanced"; else if (percentage >= 40) skillLevel =
"Intermediate";`. -/
def classifySkill (p : ℚ) : SkillLevel :=
  if p ≥ 70 then .advanced
  else if p ≥ 40 then .intermediate
  else .beginner

/-- The same determination when the percentage may be the JS value NaN
(modelled as `none`): every `NaN >= c` comparison is false in JS, so the
initial value `"Beginner"` survives. -/
def classifySkillOpt : Option ℚ → SkillLevel
  | none => .beginner
  | some p => classifySkill p

/-- A quiz question as produced by generation and consumed by
`POST /api/quiz/submit`: `{question, options, correctAnswer}`. -/
structure Question where
  question : String
  options : List String
  correctAnswer : Int
deriving DecidableEq, Repr

/-- Score loop of `POST /api/quiz/submit`:
`questions.forEach((q, idx) => { if (q.correctAnswer === answers[idx]) score++ })`.
The two lists are walked in parallel by index; `answers[idx]` for an
index past the end of `answers` is `undefined` and never strictly equal
to a number, so the tail of `questions` beyond `answers.length`
contributes nothing. -/
def computeScore : List Question → List Int → Nat
  | [], _ => 0
  | _ :: qs, [] => computeScore qs []
  | q :: qs, a :: as => (if q.correctAnswer = a then 1 else 0) + computeScore qs as

/-- One entry of the `detailedResults` array of `POST /api/quiz/submit`. -/
structure QuestionResult where
  question : String
  options : List String
  userAnswer : Option Int
  correctAnswer : Int
  isCorrect : Bool
deriving DecidableEq, Repr

/-- `detailedResults = questions.map((q, idx) => ({question, options,
userAnswer: answers[idx], correctAnswer, isCorrect: q.correctAnswer ===
answers[idx]}))`, again an index-parallel walk where a missing
`answers[idx]` is `undefined` (`none`). -/
def detailedResults : List Question → List Int → List QuestionResult
  | [], _ => []
  | q :: qs, [] =>
      ⟨q.question, q.options, none, q.correctAnswer, false⟩ :: detailedResults qs []
  | q :: qs, a :: as =>
      ⟨q.question, q.options, some a, q.correctAnswer, decide (q.correctAnswer = a)⟩
        :: detailedResults qs as

/-- `const percentage = (score / totalQuestions) * 100;` — for
`totalQuestions = 0` the JS result is `NaN` (modelled `none`), since the
score is then also 0. -/
def jsPercentage (score total : Nat) : Option ℚ :=
  if total = 0 then none else some ((score : ℚ) / (total : ℚ) * 100)

/-- A `users` row (shared/schema.ts). -/
structure User where
  id : String
  username : String
  email : String
  password : String
  selectedDomains : List String
deriving DecidableEq, Repr

/-- A `domain_skill_levels` row; `determinedAt` is the insertion-time
`defaultNow()` timestamp. -/
structure DomainSkillLevel where
  userId : String
  domain : String
  skillLevel : SkillLevel
  determinedAt : Nat
deriving DecidableEq, Repr

/-- A `quiz_attempts` row (id and `completedAt` omitted — no claim
reads them). -/
structure QuizAttempt where
  userId : String
  domain : String
  questions : List Question
  answers : List Int
  score : Nat
  totalQuestions : Nat
  skillLevelDetermined : SkillLevel
deriving DecidableEq, Repr

/-- An `enrolled_courses` row, restricted to the fields the
progress-update claims read (`progress`, `completed`). -/
structure EnrolledCourse where
  id : String
  userId : String
  domain : String
  progress : ℚ
  completed : Bool
deriving DecidableEq, Repr

/-- A chat role (`"system" | "user" | "assistant"`). -/
inductive ChatRole
  | system
  | user
  | assistant
deriving DecidableEq, Repr

/-- A `{role, content}` message as sent to the generative service and as
stored in `chat_messages`. -/
structure ChatMsg where
  role : ChatRole
  content : String
deriving DecidableEq, Repr

/-- The relational store, as append-only lists in insertion order. -/
structure StorageState where
  users : List User
  skillRows : List DomainSkillLevel
  attempts : List QuizAttempt
  courses : List EnrolledCourse
  chat : List ChatMsg
deriving DecidableEq, Repr

/-- `DbStorage.getUser`: `select ... where eq(users.id, id) limit 1`. -/
def getUser (st : StorageState) (id : String) : Option User :=
  st.users.find? (fun u => u.id == id)

/-- `DbStorage.createUser`: insert a row and return it; the generated
primary key is the explicit `newId` parameter. -/
def createUser (st : StorageState) (newId username email password : String)
    (selectedDomains : List String) : StorageState × User :=
  let u : User := ⟨newId, username, email, password, selectedDomains⟩
  ({ st with users := st.users ++ [u] }, u)

/-- `DbStorage.setDomainSkillLevel`: insert `{userId, domain, skillLevel}`
with `determinedAt` defaulting to the current time `now`. -/
def setDomainSkillLevel (st : StorageState) (userId domain : String)
    (skillLevel : SkillLevel) (now : Nat) : StorageState :=
  { st with skillRows := st.skillRows ++ [⟨userId, domain, skillLevel, now⟩] }

/-- `DbStorage.getUserSkillLevels`: `select ... where eq(userId, u)` with
no `ORDER BY` clause and no deduplication.  The engine does not specify
the row order of such a select; this definition fixes one legal order
(insertion order) and is used only where the property proved does not
depend on that choice — `getUserSkillLevelsOrdered` is the
order-general model. -/
def getUserSkillLevels (st : StorageState) (userId : String) : List DomainSkillLevel :=
  st.skillRows.filter (fun r => r.userId == userId)

/-- `DbStorage.getUserSkillLevels` with the engine's unspecified row
order made explicit: `dbOrder` is the reordering the database applies
to the matching rows of the ORDER-BY-free select (a faithful `dbOrder`
is a permutation; theorems about this definition state or check that
side condition). -/
def getUserSkillLevelsOrdered (st : StorageState) (userId : String)
    (dbOrder : List DomainSkillLevel → List DomainSkillLevel) :
    List DomainSkillLevel :=
  dbOrder (st.skillRows.filter (fun r => r.userId == userId))

/-- `DbStorage.saveQuizAttempt`: single-row insert. -/
def saveQuizAttempt (st : StorageState) (a : QuizAttempt) : StorageState :=
  { st with attempts := st.attempts ++ [a] }

/-- `DbStorage.getUserCourses`: `select ... where eq(userId, u) orderBy
desc(enrolledAt)` — over an append-only table this is the reverse of the
matching rows in insertion order. -/
def getUserCourses (st : StorageState) (userId : String) : List EnrolledCourse :=
  (st.courses.filter (fun c => c.userId == userId)).reverse

/-- `DbStorage.updateCourseProgress`: `update ... set({ progress })`. -/
def updateCourseProgress (c : EnrolledCourse) (progress : ℚ) : EnrolledCourse :=
  { c with progress := progress }

/-- `DbStorage.completeCourse`: `update ... set({ completed: true,
progress: 100 })` — one update statement setting both columns. -/
def completeCourse (c : EnrolledCourse) : EnrolledCourse :=
  { c with completed := true, progress := 100 }

/-- `DbStorage.saveChatMessage` for a given user: single-row append. -/
def saveChatMessage (st : StorageState) (role : ChatRole) (content : String) :
    StorageState :=
  { st with chat := st.chat ++ [⟨role, content⟩] }

/-- JS truthiness of an optional string request field: `!x` is true for
`undefined`, `null` and the empty string. -/
def jsTruthyStr : Option String → Bool
  | none => false
  | some s => !(s == "")

/-- Request body of `POST /api/quiz/submit`; `none` models an absent
field. -/
structure QuizSubmitRequest where
  userId : Option String
  domain : Option String
  questions : Option (List Question)
  answers : Option (List Int)
deriving DecidableEq, Repr

/-- Response of `POST /api/quiz/submit` (the `attemptId` field is
omitted — no claim reads it). -/
inductive QuizSubmitResponse
  | badRequest (error : String)
  | ok (score : Nat) (totalQuestions : Nat) (percentage : Option ℚ)
      (skillLevel : SkillLevel) (results : List QuestionResult)
deriving DecidableEq, Repr

/-- Handler of `POST /api/quiz/submit` (routes.ts).  Validation is
`if (!userId || !domain || !questions || !answers) return 400`: for the
array fields JS truthiness only rejects a missing field, because every
array — including `[]` — is truthy.  If the user does not exist a demo
user is created (`demo-user-${Date.now()}`, password `demo`,
`selectedDomains = [domain]`); then the score, percentage and skill
level are computed, the attempt and a new skill row are inserted under
`user.id`, and the scoring payload is returned. -/
def quizSubmit (st : StorageState) (freshId : String) (now : Nat)
    (req : QuizSubmitRequest) : StorageState × QuizSubmitResponse :=
  if !(jsTruthyStr req.userId) || !(jsTruthyStr req.domain)
      || req.questions == none || req.answers == none then
    (st, .badRequest "Invalid request body")
  else
    let userId := req.userId.getD ""
    let domain := req.domain.getD ""
    let questions := req.questions.getD []
    let answers := req.answers.getD []
    let stUser :=
      match getUser st userId with
      | some u => (st, u)
      | none =>
          createUser st freshId ("demo-user-" ++ toString now)
            ("demo-user-" ++ toString now ++ "@example.com") "demo" [domain]
    let user := stUser.2
    let score := computeScore questions answers
    let total := questions.length
    let percentage := jsPercentage score total
    let skillLevel := classifySkillOpt percentage
    let st2 := saveQuizAttempt stUser.1
      ⟨user.id, domain, questions, answers, score, total, skillLevel⟩
    let st3 := setDomainSkillLevel st2 user.id domain skillLevel now
    (st3, .ok score total percentage skillLevel (detailedResults questions answers))

/-- The `reduce` of `GET /api/user/:userId/skills`:
`skills.reduce((acc, skill) => { acc[skill.domain] = skill.skillLevel;
return acc; }, {})` — an object in which a later row with the same
domain overwrites an earlier one, viewed as the map it denotes. -/
def skillMap (rows : List DomainSkillLevel) : String → Option SkillLevel :=
  rows.foldl (fun acc r => fun d => if d = r.domain then some r.skillLevel else acc d)
    (fun _ => none)

/-- Handler of `GET /api/user/:userId/skills`: fetch the user's skill
rows and fold them into the domain-to-level map. -/
def getSkillsHandler (st : StorageState) (userId : String) : String → Option SkillLevel :=
  skillMap (getUserSkillLevels st userId)

/-- The same handler over the order-general select: the map the route
answers when the database returns the matching rows in the order
`dbOrder`. -/
def getSkillsHandlerOrdered (st : StorageState) (userId : String)
    (dbOrder : List DomainSkillLevel → List DomainSkillLevel) :
    String → Option SkillLevel :=
  skillMap (getUserSkillLevelsOrdered st userId dbOrder)

/-- A course object of `GET /api/courses/recommendations/:userId/:domain?`
(the AI payload shape and the fallback list share it). -/
structure Course where
  id : String
  title : String
  provider : String
  url : String
  domain : String
  skillLevel : String
  price : ℚ
  rating : ℚ
  duration : String
  description : String
  isFree : Bool
deriving DecidableEq, Repr

/-- The `fallbackCourses` literal of
`GET /api/courses/recommendations/:userId/:domain?` — four curated
courses whose `url` fields are the platform roots. -/
def fallbackCourses (targetDomain skillLevel : String) : List Course :=
  [ { id := targetDomain ++ "-free-1"
    , title := "Introduction to " ++ targetDomain
    , provider := "freeCodeCamp"
    , url := "https://www.freecodecamp.org"
    , domain := targetDomain
    , skillLevel := skillLevel
    , price := 0
    , rating := 4.8
    , duration := "Self-paced"
    , description := "Learn the fundamentals of " ++ targetDomain ++ " with hands-on projects"
    , isFree := true }
  , { id := targetDomain ++ "-free-2"
    , title := targetDomain ++ " Crash Course"
    , provider := "YouTube"
    , url := "https://www.youtube.com"
    , domain := targetDomain
    , skillLevel := skillLevel
    , price := 0
    , rating := 4.7
    , duration := "3-5 hours"
    , description := "Quick introduction to " ++ targetDomain ++ " concepts"
    , isFree := true }
  , { id := targetDomain ++ "-free-3"
    , title := "Complete " ++ targetDomain ++ " Guide"
    , provider := "Coursera"
    , url := "https://www.coursera.org"
    , domain := targetDomain
    , skillLevel := skillLevel
    , price := 0
    , rating := 4.6
    , duration := "4 weeks"
    , description := "Comprehensive " ++ skillLevel ++ " level " ++ targetDomain ++ " course"
    , isFree := true }
  , { id := targetDomain ++ "-paid-1"
    , title := "Advanced " ++ targetDomain ++ " Masterclass"
    , provider := "Udemy"
    , url := "https://www.udemy.com"
    , domain := targetDomain
    , skillLevel := skillLevel
    , price := 49.99
    , rating := 4.9
    , duration := "20 hours"
    , description := "Deep dive into " ++ targetDomain ++ " with real-world projects"
    , isFree := false } ]

/-- `const targetDomain = domain || (skillLevels.length > 0 ?
skillLevels[0].domain : 'Web Development');` — the optional path
parameter if truthy, else the first skill row's domain, else the
default. -/
def recTargetDomain (st : StorageState) (userId : String) (domainParam : Option String) :
    String :=
  if jsTruthyStr domainParam then domainParam.getD ""
  else
    match (getUserSkillLevels st userId).head? with
    | some r => r.domain
    | none => "Web Development"

/-- `const skillLevel = skillLevels.find(s => s.domain ===
targetDomain)?.skillLevel || 'Beginner';` — the FIRST matching row in
the unordered select, defaulting to Beginner. -/
def recSkillName (st : StorageState) (userId : String) (domainParam : Option String) :
    String :=
  match (getUserSkillLevels st userId).find?
      (fun s => s.domain == recTargetDomain st userId domainParam) with
  | some s => s.skillLevel.toName
  | none => "Beginner"

/-- Handler of `GET /api/courses/recommendations/:userId/:domain?`.
`ai = some cs` models a generative call whose reply parsed
(`data.courses || []` gives `cs`, possibly empty); `ai = none` models a
throw, answered by the inner `catch (aiError)` with the curated
fallback list.  A parsed course list is returned exactly as received —
the handler applies no URL check and no minimum-count check. -/
def getRecommendationsHandler (st : StorageState) (userId : String)
    (domainParam : Option String) (ai : Option (List Course)) : List Course :=
  match ai with
  | some cs => cs
  | none =>
      fallbackCourses (recTargetDomain st userId domainParam)
        (recSkillName st userId domainParam)

/-- A course object of `POST /api/courses/recommend`. -/
structure RecCourse where
  title : String
  platform : String
  url : String
  isPaid : Bool
  description : String
  skillLevel : String
deriving DecidableEq, Repr

/-- Response of `POST /api/courses/recommend`. -/
inductive RecommendResponse
  | badRequest (error : String)
  | ok (courses : List RecCourse)
  | serverError (error : String)
deriving DecidableEq, Repr

/-- Handler of `POST /api/courses/recommend` (routes.ts).  The OpenAI
call and `JSON.parse` sit directly inside the route's single outer
`try`; there is no inner `catch` and no fallback list here, so a
generative failure (`ai = none`) reaches the outer `catch` and is
answered with HTTP 500 `Failed to recommend courses`. -/
def recommendCoursesHandler (domain skillLevel : Option String)
    (ai : Option (List RecCourse)) : RecommendResponse :=
  if !jsTruthyStr domain || !jsTruthyStr skillLevel then
    .badRequest "Domain and skill level are required"
  else
    match ai with
    | some cs => .ok cs
    | none => .serverError "Failed to recommend courses"

/-- The first static question bank of `getFallbackQuiz`
(`questionBanks[0]`, routes.ts). -/
def questionBank0 (domain : String) : List Question :=
  [ ⟨"What is the primary purpose of " ++ domain ++ "?",
      [ "To build software applications"
      , "To manage data and information"
      , "To solve specific technical problems"
      , "All of the above" ], 3⟩
  , ⟨"Which skill is most important for " ++ domain ++ "?",
      [ "Problem-solving abilities"
      , "Communication skills"
      , "Technical knowledge"
      , "All are equally important" ], 3⟩
  , ⟨domain ++ " is best described as:",
      [ "A theoretical field"
      , "A practical discipline"
      , "Both theoretical and practical"
      , "Neither theoretical nor practical" ], 2⟩
  , ⟨"What is a common tool used in " ++ domain ++ "?",
      [ "Specialized software"
      , "Programming languages"
      , "Development frameworks"
      , "Varies by specific application" ], 3⟩
  , ⟨"How would you rate the learning curve for " ++ domain ++ "?",
      [ "Very easy"
      , "Moderate"
      , "Challenging but manageable"
      , "Very difficult" ], 2⟩ ]

/-- The second static question bank of `getFallbackQuiz`
(`questionBanks[1]`, routes.ts). -/
def questionBank1 (domain : String) : List Question :=
  [ ⟨"Which approach is most effective for learning " ++ domain ++ "?",
      [ "Reading documentation only"
      , "Hands-on practice and projects"
      , "Watching video tutorials"
      , "Attending workshops" ], 1⟩
  , ⟨"What role does " ++ domain ++ " play in modern technology?",
      [ "It\x27s becoming obsolete"
      , "It\x27s essential and growing"
      , "It\x27s only for specialists"
      , "It\x27s mainly theoretical" ], 1⟩
  , ⟨"How often should you practice " ++ domain ++ " skills?",
      [ "Once a month"
      , "Once a week"
      , "Daily or several times per week"
      , "Only when working on projects" ], 2⟩
  , ⟨"What\x27s the best way to stay current in " ++ domain ++ "?",
      [ "Follow industry blogs and forums"
      , "Take regular courses"
      , "Work on real projects"
      , "All of the above" ], 3⟩
  , ⟨domain ++ " expertise requires:",
      [ "Natural talent only"
      , "Consistent practice and learning"
      , "Expensive equipment"
      , "A computer science degree" ], 1⟩ ]

/-- `const questionBanks = [ ..., ... ];` — the two banks. -/
def questionBanks (domain : String) : List (List Question) :=
  [questionBank0 domain, questionBank1 domain]

/-- `const allQuestions = [...questionBanks[0], ...questionBanks[1]];`. -/
def fallbackPool (domain : String) : List Question :=
  (questionBanks domain).getD 0 [] ++ (questionBanks domain).getD 1 []

/-- The `{domain, questions}` value `getFallbackQuiz` returns. -/
structure FallbackQuiz where
  domain : String
  questions : List Question
deriving DecidableEq, Repr

/-- `getFallbackQuiz` (routes.ts): concatenate the two banks, reorder
the copy with `[...allQuestions].sort(() => Math.random() - 0.5)`, and
take `slice(0, 5)`.  The sort with an inconsistent random comparator is
engine- and randomness-dependent; it is modelled by the explicit
reordering parameter `jsRandomSort` (it is NOT a Fisher-Yates uniform
shuffle). -/
def getFallbackQuiz (domain : String)
    (jsRandomSort : List Question → List Question) : FallbackQuiz :=
  { domain := domain
  , questions := (jsRandomSort (fallbackPool domain)).take 5 }

/-- Outcome of the generative call in `POST /api/quiz/generate`:
`failure` is a throw; `parsed q` is a reply that `JSON.parse` accepted,
with `q = none` when the payload has no `questions` array. -/
inductive QuizAiOutcome
  | failure
  | parsed (questions : Option (List Question))
deriving DecidableEq, Repr

/-- Response of `POST /api/quiz/generate`. -/
inductive QuizGenResponse
  | badRequest (error : String)
  | ok (domain : String) (questions : List Question)
deriving DecidableEq, Repr

/-- Handler of `POST /api/quiz/generate` (routes.ts): reject a missing
or empty `domains` array with 400; otherwise use `domains[0]`; a
generative failure or a structurally invalid reply (`!quizData.questions
|| !Array.isArray(...) || length === 0`) is answered — inside the inner
`catch` / validation branch — with the fallback quiz and HTTP 200. -/
def quizGenerateHandler (domains : Option (List String)) (ai : QuizAiOutcome)
    (jsRandomSort : List Question → List Question) : QuizGenResponse :=
  match domains with
  | none => .badRequest "Domains are required"
  | some [] => .badRequest "Domains are required"
  | some (d :: _) =>
      let fb := getFallbackQuiz d jsRandomSort
      match ai with
      | .failure => .ok fb.domain fb.questions
      | .parsed none => .ok fb.domain fb.questions
      | .parsed (some qs) =>
          if qs.isEmpty then .ok fb.domain fb.questions else .ok d qs

/-- Response of `PATCH /api/courses/:courseId/progress`. -/
inductive ProgressResponse
  | badRequest (error : String)
  | success
deriving DecidableEq, Repr

/-- Handler of `PATCH /api/courses/:courseId/progress` acting on the
targeted enrollment row: `if (typeof progress !== 'number' || progress
< 0 || progress > 100) return 400;` (a JSON body never encodes NaN, so
`none` covers every non-number), then `completeCourse` for exactly 100
and `updateCourseProgress` otherwise. -/
def updateProgressHandler (c : EnrolledCourse) (progress : Option ℚ) :
    EnrolledCourse × ProgressResponse :=
  match progress with
  | none => (c, .badRequest "Invalid progress value")
  | some p =>
      if p < 0 ∨ p > 100 then (c, .badRequest "Invalid progress value")
      else if p = 100 then (completeCourse c, .success)
      else (updateCourseProgress c p, .success)

/-- `message.toLowerCase().includes(sub)`-style substring test. -/
def jsIncludes (s sub : String) : Bool :=
  decide (sub.toList <:+: s.toList)

/-- `courses.filter(c => c.completed)` in the chat handler. -/
def completedCoursesOf (st : StorageState) (userId : String) : List EnrolledCourse :=
  (getUserCourses st userId).filter (fun c => c.completed)

/-- `courses.filter(c => !c.completed && (c.progress || 0) > 0)`. -/
def inProgressCoursesOf (st : StorageState) (userId : String) : List EnrolledCourse :=
  (getUserCourses st userId).filter (fun c => !c.completed && c.progress > 0)

/-- `const assessedDomains = skills.map(s => s.domain);`. -/
def assessedDomainsOf (st : StorageState) (userId : String) : List String :=
  (getUserSkillLevels st userId).map (fun s => s.domain)

/-- `inProgressCourses.map(c => c.domain).filter(d => d &&
!assessedDomains.includes(d))`. -/
def unevaluatedDomainsOf (st : StorageState) (userId : String) : List String :=
  ((inProgressCoursesOf st userId).map (fun c => c.domain)).filter
    (fun d => !(d == "") && !((assessedDomainsOf st userId).contains d))

/-- The context-aware fallback of `POST /api/chat` (the `catch (aiError)`
branch): keyword dispatch over the lowercased message, with canned
replies parameterised by the user's stored progress. -/
def fallbackChatResponse (st : StorageState) (userId message : String) : String :=
  let lowerMessage := message.toLower
  let skills := getUserSkillLevels st userId
  let completedCourses := completedCoursesOf st userId
  let assessedDomains := assessedDomainsOf st userId
  let unevaluatedDomains := unevaluatedDomainsOf st userId
  if jsIncludes lowerMessage "motivat" || jsIncludes lowerMessage "stuck"
      || jsIncludes lowerMessage "difficult" then
    "Learning can be challenging, but you\x27re making great progress! Remember that every expert was once a beginner. Take it one step at a time, celebrate small wins, and don\x27t be afraid to ask for help. You\x27ve got this!"
  else if jsIncludes lowerMessage "next" || jsIncludes lowerMessage "what should"
      || jsIncludes lowerMessage "recommend" then
    if !unevaluatedDomains.isEmpty then
      "Great question! I notice you\x27re making progress in "
        ++ String.intercalate ", " unevaluatedDomains
        ++ ". Once you feel comfortable with the material, I\x27d recommend taking a skill assessment quiz to measure your progress and get personalized course recommendations. Head to the Assessments page when you\x27re ready!"
    else if completedCourses.length > 0 && skills.length == 0 then
      "You\x27ve completed " ++ toString completedCourses.length ++ " course"
        ++ (if completedCourses.length > 1 then "s" else "")
        ++ " - that\x27s awesome! Now would be a great time to take a skills assessment to see how much you\x27ve learned and get recommendations for your next steps. Check out the Assessments page!"
    else
      "Based on your current skill levels, I\x27d recommend focusing on building practical projects. Hands-on experience is one of the best ways to solidify your knowledge. Check out the Courses page for resources tailored to your level!"
  else if jsIncludes lowerMessage "quiz" || jsIncludes lowerMessage "assess"
      || jsIncludes lowerMessage "test" then
    if skills.length == 0 then
      "Taking your first skills assessment is a great way to start! It\x27ll help us understand your current level and recommend the perfect courses for you. Visit the Assessments page to get started!"
    else
      "You\x27ve already assessed your skills in "
        ++ String.intercalate ", " assessedDomains ++ ". "
        ++ (if !unevaluatedDomains.isEmpty then
              "Consider taking quizzes in " ++ String.intercalate ", " unevaluatedDomains
                ++ " to track your progress in those areas!"
            else
              "Keep learning and reassess periodically to track your improvement!")
  else if jsIncludes lowerMessage "schedule" || jsIncludes lowerMessage "plan"
      || jsIncludes lowerMessage "time" then
    "Creating a consistent learning schedule is key to success! Try dedicating specific time blocks each day, even if it\x27s just 30 minutes. Use the Schedule feature to plan your learning milestones and track your progress."
  else
    "I\x27m here to support your learning journey! I can help you with study strategies, course recommendations, staying motivated, or planning your learning schedule. What would you like to focus on today?"

/-- The message array `POST /api/chat` hands to the generative service:
`[{role: "system", content: systemPrompt}, ...(conversationHistory ||
[]), {role: "user", content: message}]` — the client-supplied history is
spliced in verbatim, with no filtering of any kind. -/
def outgoingMessages (systemPrompt : String) (conversationHistory : List ChatMsg)
    (message : String) : List ChatMsg :=
  ChatMsg.mk .system systemPrompt :: (conversationHistory ++ [ChatMsg.mk .user message])

/-- Response of `POST /api/chat`. -/
inductive ChatResponse
  | badRequest (error : String)
  | ok (response : String)
deriving DecidableEq, Repr

/-- Handler of `POST /api/chat` (routes.ts): validate `userId` and
`message`, obtain the reply from the generative service (`ai = some r`)
or — in the inner `catch (aiError)` — from the keyword fallback, append
the user message and the reply to chat history in that order, and
answer 200 with the reply. -/
def chatHandler (st : StorageState) (userId message : Option String)
    (_conversationHistory : List ChatMsg) (ai : Option String) :
    StorageState × ChatResponse :=
  if !jsTruthyStr userId || !jsTruthyStr message then
    (st, .badRequest "User ID and message are required")
  else
    let msg := message.getD ""
    let uid := userId.getD ""
    let response :=
      match ai with
      | some r => r
      | none => fallbackChatResponse st uid msg
    let st1 := saveChatMessage st .user msg
    let st2 := saveChatMessage st1 .assistant response
    (st2, .ok response)

/-- The hardcoded welcome message seeded into the mentor page's message
list purely for initial UI display (MentorPage.tsx, `useState` initial
value). -/
def welcomeMessage : String :=
  "Hi! I\x27m your AI learning mentor. I\x27m here to help you achieve your learning goals. How can I assist you today?"

/-- The mentor page's initial `messages` state: the synthetic assistant
welcome turn. -/
def mentorPageInitialMessages : List ChatMsg :=
  [ChatMsg.mk .assistant welcomeMessage]

/-- The history the mentor page sends with every chat request:
`conversationHistory: messages.map(m => ({ role: m.role, content:
m.content }))` — the full message list, the seeded welcome turn
included. -/
def clientConversationHistory (messages : List ChatMsg) : List ChatMsg :=
  messages.map (fun m => ChatMsg.mk m.role m.content)

/-- The spec's URL validation policy, stated for comparison with the
handler (the spec accepts a URL only when it carries a
specific-resource path segment, naming `/watch?v=`, `/learn/` and
`/course/` as the recognised segments).  The handler under test has no
counterpart of this definition. -/
def specUrlAccepted (url : String) : Bool :=
  jsIncludes url "/watch?v=" || jsIncludes url "/learn/" || jsIncludes url "/course/"

/-- An empty store. -/
def emptyStorage : StorageState :=
  { users := [], skillRows := [], attempts := [], courses := [], chat := [] }

/-- Store with one user `u1` and two skill rows for (u1, Web
Development): Beginner determined at time 1, then Intermediate at
time 2. -/
def exStoreTwoRows : StorageState :=
  { users := [⟨"u1", "alice", "alice@example.com", "pw", ["Web Development"]⟩]
  , skillRows :=
      [ ⟨"u1", "Web Development", .beginner, 1⟩
      , ⟨"u1", "Web Development", .intermediate, 2⟩ ]
  , attempts := [], courses := [], chat := [] }

/-- Store with just the user `u1`. -/
def exStoreOneUser : StorageState :=
  { users := [⟨"u1", "bob", "bob@example.com", "pw", []⟩]
  , skillRows := [], attempts := [], courses := [], chat := [] }

/-- A two-question quiz used as concrete input. -/
def exQuestions : List Question :=
  [ ⟨"Q1", ["a", "b", "c", "d"], 3⟩
  , ⟨"Q2", ["a", "b", "c", "d"], 1⟩ ]

/-- Concrete answers for `exQuestions`: first correct, second wrong. -/
def exAnswers : List Int := [3, 0]

/-- `POST /api/quiz/submit` body with an empty question set. -/
def emptyQuizReq : QuizSubmitRequest :=
  ⟨some "u1", some "Web Development", some [], some []⟩

/-- A generated course whose URL is a bare platform root. -/
def bareCourse : Course :=
  { id := "c1", title := "Complete Web Development Guide", provider := "Coursera"
  , url := "https://www.coursera.org", domain := "Web Development"
  , skillLevel := "Beginner", price := 0, rating := 4.6, duration := "4 weeks"
  , description := "Comprehensive course", isFree := true }

/-- A concrete enrollment row, 10 percent done and not completed. -/
def exEnrollment : EnrolledCourse :=
  { id := "e1", userId := "u1", domain := "Web Development"
  , progress := 10, completed := false }

/- ------------------------------------------------------------------ -/
/- Theorems                                                           -/
/- ------------------------------------------------------------------ -/

/-- C1.  For every percentage `p`, the submit handler's classifier
returns Advanced iff `p ≥ 70`, Intermediate iff `40 ≤ p < 70` and
Beginner iff `p < 40`; in particular exactly 70 classifies Advanced
and exactly 40 Intermediate. -/
theorem skill_classifier_thresholds (p : ℚ) :
    (classifySkill p = SkillLevel.advanced ↔ 70 ≤ p) ∧
    (classifySkill p = SkillLevel.intermediate ↔ 40 ≤ p ∧ p < 70) ∧
    (classifySkill p = SkillLevel.beginner ↔ p < 40) ∧
    classifySkill 70 = SkillLevel.advanced ∧
    classifySkill 40 = SkillLevel.intermediate := by
  unfold classifySkill
  refine ⟨?_, ?_, ?_, by norm_num, by norm_num⟩
  all_goals split_ifs with h1 h2 <;> simp_all <;> linarith

/-- C2 (code bug).  `DbStorage.getUserSkillLevels` has no `ORDER BY`
and no per-domain deduplication, so the row order of its select is the
engine's choice, and the route's last-write-wins fold returns whichever
matching row that unspecified order puts last.  For the user with a
Beginner row at time 1 and an Intermediate row at time 2, the
newest-first order — a legal order for an ORDER-BY-free select, and a
permutation of the matching rows — makes the skills route answer the
stale Beginner instead of the latest Intermediate, while the
oldest-first order answers Intermediate: the endpoint's result depends
on an order the program never fixes. -/
theorem stale_skill_level_order_dependent :
    (getUserSkillLevelsOrdered exStoreTwoRows "u1" List.reverse).Perm
      (getUserSkillLevels exStoreTwoRows "u1") ∧
    getSkillsHandlerOrdered exStoreTwoRows "u1" List.reverse "Web Development" =
      some SkillLevel.beginner ∧
    getSkillsHandlerOrdered exStoreTwoRows "u1" List.reverse "Web Development" ≠
      some SkillLevel.intermediate ∧
    getSkillsHandlerOrdered exStoreTwoRows "u1" id "Web Development" =
      some SkillLevel.intermediate :=
  ⟨List.reverse_perm _, by decide, by decide, by decide⟩

/-- With index-parallel answers of the same length, the submit loop's
score is the number of positions whose answer equals the question's
key. -/
theorem computeScore_eq_zip_count :
    ∀ (qs : List Question) (answers : List Int), answers.length = qs.length →
      computeScore qs answers =
        (qs.zip answers).countP (fun p => p.1.correctAnswer == p.2) := by
  intro qs
  induction qs with
  | nil =>
      intro answers _
      cases answers <;> simp [computeScore]
  | cons q qs ih =>
      intro answers h
      cases answers with
      | nil => simp at h
      | cons a rest =>
          have hlen : rest.length = qs.length := by
            simpa using h
          simp only [computeScore, List.zip_cons_cons, List.countP_cons, ih rest hlen]
          by_cases hqa : q.correctAnswer = a <;> simp [hqa, Nat.add_comm]

/-- With index-parallel answers of the same length, the per-question
breakdown is the position-wise record the claim describes. -/
theorem detailedResults_eq_zip_map :
    ∀ (qs : List Question) (answers : List Int), answers.length = qs.length →
      detailedResults qs answers =
        (qs.zip answers).map (fun p =>
          ⟨p.1.question, p.1.options, some p.2, p.1.correctAnswer,
            decide (p.1.correctAnswer = p.2)⟩) := by
  intro qs
  induction qs with
  | nil =>
      intro answers _
      cases answers <;> simp [detailedResults]
  | cons q qs ih =>
      intro answers h
      cases answers with
      | nil => simp at h
      | cons a rest =>
          have hlen : rest.length = qs.length := by
            simpa using h
          simp [detailedResults, ih rest hlen]

/-- C3.  For every submission with equally long non-empty `questions`
and `answers`, the response carries `score = count of i with
questions[i].correctAnswer = answers[i]`, `percentage =
100 * score / totalQuestions`, the matching classification, and a
per-question `{question, options, userAnswer, correctAnswer,
isCorrect}` breakdown covering every index. -/
theorem quiz_scoring_correct (st : StorageState) (freshId : String) (now : Nat)
    (uid d : String) (qs : List Question) (answers : List Int)
    (huid : uid ≠ "") (hd : d ≠ "") (hqs : qs ≠ [])
    (hlen : answers.length = qs.length) :
    (quizSubmit st freshId now ⟨some uid, some d, some qs, some answers⟩).2 =
      QuizSubmitResponse.ok
        ((qs.zip answers).countP (fun p => p.1.correctAnswer == p.2))
        qs.length
        (some (100 * (((qs.zip answers).countP (fun p => p.1.correctAnswer == p.2) : ℚ))
          / (qs.length : ℚ)))
        (classifySkill (100 * (((qs.zip answers).countP
          (fun p => p.1.correctAnswer == p.2) : ℚ)) / (qs.length : ℚ)))
        ((qs.zip answers).map (fun p =>
          ⟨p.1.question, p.1.options, some p.2, p.1.correctAnswer,
            decide (p.1.correctAnswer = p.2)⟩)) := by
  have hp : ∀ s : Nat, jsPercentage s qs.length =
      some (100 * (s : ℚ) / (qs.length : ℚ)) := by
    intro s
    unfold jsPercentage
    rw [if_neg (fun h => hqs (List.length_eq_zero.1 h))]
    congr 1
    ring
  have hcond : (!(jsTruthyStr (some uid)) || !(jsTruthyStr (some d))
      || ((some qs : Option (List Question)) == none)
      || ((some answers : Option (List Int)) == none)) = false := by
    simp [jsTruthyStr, huid, hd]
  unfold quizSubmit
  rw [hcond]
  simp only [Bool.false_eq_true, if_false, Option.getD_some]
  rw [computeScore_eq_zip_count qs answers hlen,
    detailedResults_eq_zip_map qs answers hlen, hp]
  rfl

/-- C3 witness: a 2-question submission answering one correctly scores
1/2, percentage 50, Intermediate, with the full breakdown. -/
theorem quiz_scoring_correct_witness :
    (quizSubmit exStoreOneUser "f1" 7
      ⟨some "u1", some "Web Development", some exQuestions, some exAnswers⟩).2 =
      QuizSubmitResponse.ok 1 2 (some 50) SkillLevel.intermediate
        [ ⟨"Q1", ["a", "b", "c", "d"], some 3, 3, true⟩
        , ⟨"Q2", ["a", "b", "c", "d"], some 0, 1, false⟩ ] := by
  refine (quiz_scoring_correct exStoreOneUser "f1" 7 "u1" "Web Development"
    exQuestions exAnswers (by decide) (by decide) (by decide) (by decide)).trans ?_
  have hcount : (exQuestions.zip exAnswers).countP
      (fun p => p.1.correctAnswer == p.2) = 1 := by decide
  have hlen2 : exQuestions.length = 2 := by decide
  have hmap : (exQuestions.zip exAnswers).map (fun p =>
      (⟨p.1.question, p.1.options, some p.2, p.1.correctAnswer,
        decide (p.1.correctAnswer = p.2)⟩ : QuestionResult)) =
      [ ⟨"Q1", ["a", "b", "c", "d"], some 3, 3, true⟩
      , ⟨"Q2", ["a", "b", "c", "d"], some 0, 1, false⟩ ] := by decide
  rw [hcount, hlen2, hmap]
  norm_num [classifySkill]

/-- C4 (code bug).  A submission whose `questions` array is empty is
not rejected: an empty array is truthy in JavaScript so the `!questions`
validation passes, the percentage is the non-finite `(0/0)*100` (NaN,
modelled `none`), the zero-question attempt is persisted, and the
endpoint answers 200 with skill level Beginner. -/
theorem empty_quiz_not_rejected :
    (quizSubmit exStoreOneUser "fresh" 5 emptyQuizReq).2 =
      QuizSubmitResponse.ok 0 0 none SkillLevel.beginner [] ∧
    (quizSubmit exStoreOneUser "fresh" 5 emptyQuizReq).1.attempts =
      [⟨"u1", "Web Development", [], [], 0, 0, SkillLevel.beginner⟩] :=
  ⟨by decide, by decide⟩

/-- C10.  A submission whose `userId` matches no user is not answered
404: the handler creates a demo user (`demo-user-` plus the timestamp,
password `demo`, selected domains `[domain]`), records the attempt and
the new skill row under the fresh user's id, and answers 200 with the
normal scoring payload. -/
theorem unknown_user_demo_failsafe (st : StorageState) (freshId : String)
    (now : Nat) (uid d : String) (qs : List Question) (answers : List Int)
    (hnew : getUser st uid = none) (huid : uid ≠ "") (hd : d ≠ "") :
    (quizSubmit st freshId now ⟨some uid, some d, some qs, some answers⟩).2 =
      QuizSubmitResponse.ok (computeScore qs answers) qs.length
        (jsPercentage (computeScore qs answers) qs.length)
        (classifySkillOpt (jsPercentage (computeScore qs answers) qs.length))
        (detailedResults qs answers) ∧
    (quizSubmit st freshId now ⟨some uid, some d, some qs, some answers⟩).1.users =
      st.users ++ [⟨freshId, "demo-user-" ++ toString now,
        "demo-user-" ++ toString now ++ "@example.com", "demo", [d]⟩] ∧
    (quizSubmit st freshId now ⟨some uid, some d, some qs, some answers⟩).1.attempts =
      st.attempts ++ [⟨freshId, d, qs, answers, computeScore qs answers, qs.length,
        classifySkillOpt (jsPercentage (computeScore qs answers) qs.length)⟩] ∧
    (quizSubmit st freshId now ⟨some uid, some d, some qs, some answers⟩).1.skillRows =
      st.skillRows ++ [⟨freshId, d,
        classifySkillOpt (jsPercentage (computeScore qs answers) qs.length), now⟩] := by
  have hcond : (!(jsTruthyStr (some uid)) || !(jsTruthyStr (some d))
      || ((some qs : Option (List Question)) == none)
      || ((some answers : Option (List Int)) == none)) = false := by
    simp [jsTruthyStr, huid, hd]
  unfold quizSubmit
  rw [hcond]
  simp only [Bool.false_eq_true, if_false, Option.getD_some, hnew]
  simp [createUser, saveQuizAttempt, setDomainSkillLevel]

/-- C10 witness: submitting for unknown user `ghost` at time 42 creates
`demo-user-42` and answers the normal payload. -/
theorem unknown_user_demo_failsafe_witness :
    (quizSubmit emptyStorage "id-1" 42
      ⟨some "ghost", some "Web Development", some exQuestions, some exAnswers⟩).1.users =
      [⟨"id-1", "demo-user-42", "demo-user-42@example.com", "demo",
        ["Web Development"]⟩] ∧
    (quizSubmit emptyStorage "id-1" 42
      ⟨some "ghost", some "Web Development", some exQuestions, some exAnswers⟩).2 =
      QuizSubmitResponse.ok 1 2 (some 50) SkillLevel.intermediate
        [ ⟨"Q1", ["a", "b", "c", "d"], some 3, 3, true⟩
        , ⟨"Q2", ["a", "b", "c", "d"], some 0, 1, false⟩ ] := by
  have h := unknown_user_demo_failsafe emptyStorage "id-1" 42 "ghost"
    "Web Development" exQuestions exAnswers (by decide) (by decide) (by decide)
  refine ⟨h.2.1.trans (by decide), h.1.trans ?_⟩
  have hs : computeScore exQuestions exAnswers = 1 := by decide
  have hl : exQuestions.length = 2 := by decide
  have hdr : detailedResults exQuestions exAnswers =
      [ ⟨"Q1", ["a", "b", "c", "d"], some 3, 3, true⟩
      , ⟨"Q2", ["a", "b", "c", "d"], some 0, 1, false⟩ ] := by decide
  rw [hs, hl, hdr]
  norm_num [jsPercentage, classifySkillOpt, classifySkill]

/-- C5 counterexample.  A parsed generated list consisting of the
single course with the bare platform-root URL
`https://www.coursera.org` — which the claim says must be rejected, and
whose surviving count 1 < 6 should force the full fallback — is
returned exactly as received by the recommendations endpoint. -/
theorem recommendations_unfiltered_counterexample :
    getRecommendationsHandler emptyStorage "u1" (some "Web Development")
      (some [bareCourse]) = [bareCourse] ∧
    specUrlAccepted bareCourse.url = false ∧
    [bareCourse].length < 6 ∧
    getRecommendationsHandler emptyStorage "u1" (some "Web Development")
      (some [bareCourse]) ≠ fallbackCourses "Web Development" "Beginner" ∧
    specUrlAccepted "https://www.coursera.org/learn/some-course" = true := by
  refine ⟨rfl, by decide, by decide, ?_, by decide⟩
  intro h
  have hlen := congrArg List.length h
  simp [fallbackCourses, getRecommendationsHandler] at hlen

/-- C5 as amended.  The recommendations endpoint applies no URL
validation and no minimum-count rule: a parsed generated list is
returned verbatim, and the 4-course static fallback — all of whose
URLs are themselves bare platform roots — is returned exactly when the
generative call fails. -/
theorem recommendations_passthrough (st : StorageState) (uid : String)
    (dp : Option String) :
    (∀ cs, getRecommendationsHandler st uid dp (some cs) = cs) ∧
    (getRecommendationsHandler st uid dp none =
      fallbackCourses (recTargetDomain st uid dp) (recSkillName st uid dp)) ∧
    (fallbackCourses (recTargetDomain st uid dp) (recSkillName st uid dp)).length
      = 4 ∧
    (∀ c ∈ fallbackCourses (recTargetDomain st uid dp) (recSkillName st uid dp),
      specUrlAccepted c.url = false) := by
  refine ⟨fun cs => rfl, rfl, rfl, ?_⟩
  intro c hc
  simp only [fallbackCourses, List.mem_cons, List.not_mem_nil, or_false] at hc
  rcases hc with h | h | h | h
  · subst h
    exact (by decide : specUrlAccepted "https://www.freecodecamp.org" = false)
  · subst h
    exact (by decide : specUrlAccepted "https://www.youtube.com" = false)
  · subst h
    exact (by decide : specUrlAccepted "https://www.coursera.org" = false)
  · subst h
    exact (by decide : specUrlAccepted "https://www.udemy.com" = false)

/-- C5 witness: with no stored skills and no domain parameter, a failed
generation is answered by the fallback list, one of whose members has a
URL the spec policy rejects. -/
theorem recommendations_passthrough_witness :
    getRecommendationsHandler emptyStorage "u2" none none =
      fallbackCourses (recTargetDomain emptyStorage "u2" none)
        (recSkillName emptyStorage "u2" none) ∧
    ∃ c ∈ fallbackCourses (recTargetDomain emptyStorage "u2" none)
        (recSkillName emptyStorage "u2" none), specUrlAccepted c.url = false := by
  have h := recommendations_passthrough emptyStorage "u2" none
  exact ⟨h.2.1, ⟨_, List.mem_cons_self _ _, h.2.2.2 _ (List.mem_cons_self _ _)⟩⟩

/-- C6 counterexample.  `POST /api/courses/recommend` has no inner
fallback: a generative failure reaches the route's outer catch and is
surfaced to the caller as the HTTP 500 error `Failed to recommend
courses` — contradicting the claim that such failures are never
surfaced as an HTTP error for any course-generation endpoint. -/
theorem recommend_endpoint_surfaces_ai_error :
    recommendCoursesHandler (some "Web Development") (some "Beginner") none =
      RecommendResponse.serverError "Failed to recommend courses" := rfl

/-- C6 as amended.  Generative failures are absorbed into successful
fallback responses by quiz generation (error, unparseable and empty
replies alike), by the user-facing recommendations endpoint, and by
chat — but not by `POST /api/courses/recommend`. -/
theorem generative_failures_absorbed (d : String) (ds : List String)
    (f : List Question → List Question) (st : StorageState) (uid : String)
    (dp : Option String) (u m : String) (hist : List ChatMsg)
    (hu : u ≠ "") (hm : m ≠ "") :
    quizGenerateHandler (some (d :: ds)) QuizAiOutcome.failure f =
      QuizGenResponse.ok d (getFallbackQuiz d f).questions ∧
    quizGenerateHandler (some (d :: ds)) (QuizAiOutcome.parsed none) f =
      QuizGenResponse.ok d (getFallbackQuiz d f).questions ∧
    quizGenerateHandler (some (d :: ds)) (QuizAiOutcome.parsed (some [])) f =
      QuizGenResponse.ok d (getFallbackQuiz d f).questions ∧
    getRecommendationsHandler st uid dp none =
      fallbackCourses (recTargetDomain st uid dp) (recSkillName st uid dp) ∧
    (chatHandler st (some u) (some m) hist none).2 =
      ChatResponse.ok (fallbackChatResponse st u m) := by
  refine ⟨rfl, rfl, rfl, rfl, ?_⟩
  have hcond : (!(jsTruthyStr (some u)) || !(jsTruthyStr (some m))) = false := by
    simp [jsTruthyStr, hu, hm]
  unfold chatHandler
  rw [hcond]
  simp only [Bool.false_eq_true, if_false, Option.getD_some]

/-- C6 witness: a failed generation yields the fallback quiz for Web
Development and the canned chat reply for a stuck student, both with
success. -/
theorem generative_failures_absorbed_witness :
    quizGenerateHandler (some ["Web Development"]) QuizAiOutcome.failure id =
      QuizGenResponse.ok "Web Development"
        (getFallbackQuiz "Web Development" id).questions ∧
    (chatHandler emptyStorage (some "u1") (some "I feel stuck") [] none).2 =
      ChatResponse.ok (fallbackChatResponse emptyStorage "u1" "I feel stuck") := by
  have h := generative_failures_absorbed "Web Development" [] id emptyStorage
    "u1" none "u1" "I feel stuck" [] (by decide) (by decide)
  exact ⟨h.1, h.2.2.2.2⟩

/-- C7 (code bug).  The mentor page seeds its message list with the
hardcoded welcome turn and sends the whole list as
`conversationHistory`; the chat endpoint splices that history verbatim
between the system prompt and the new user turn, so the outgoing
context contains the welcome message exactly once — not zero times as
the claim requires. -/
theorem welcome_message_forwarded (systemPrompt message : String) :
    clientConversationHistory mentorPageInitialMessages =
      [ChatMsg.mk ChatRole.assistant welcomeMessage] ∧
    ChatMsg.mk ChatRole.assistant welcomeMessage ∈
      outgoingMessages systemPrompt
        (clientConversationHistory mentorPageInitialMessages) message ∧
    (outgoingMessages systemPrompt
        (clientConversationHistory mentorPageInitialMessages) message).countP
      (fun x => x == ChatMsg.mk ChatRole.assistant welcomeMessage) = 1 := by
  refine ⟨rfl, ?_, ?_⟩
  · simp [outgoingMessages, clientConversationHistory, mentorPageInitialMessages]
  · simp [outgoingMessages, clientConversationHistory, mentorPageInitialMessages,
      List.countP_cons, List.countP_append]

/-- C8.  The progress route rejects non-numeric and out-of-range
values with 400; `progress = 100` sets `completed = true` together
with `progress = 100` in the single `completeCourse` update; any other
in-range value updates `progress` alone, leaving `completed` as it
was. -/
theorem progress_update_rules :
    (∀ c : EnrolledCourse, updateProgressHandler c none =
      (c, ProgressResponse.badRequest "Invalid progress value")) ∧
    (∀ (c : EnrolledCourse) (p : ℚ), p < 0 ∨ 100 < p →
      updateProgressHandler c (some p) =
        (c, ProgressResponse.badRequest "Invalid progress value")) ∧
    (∀ c : EnrolledCourse, updateProgressHandler c (some 100) =
      ({ c with completed := true, progress := 100 }, ProgressResponse.success)) ∧
    (∀ (c : EnrolledCourse) (p : ℚ), 0 ≤ p → p ≤ 100 → p ≠ 100 →
      updateProgressHandler c (some p) =
        ({ c with progress := p }, ProgressResponse.success)) ∧
    (∀ c : EnrolledCourse,
      (updateProgressHandler c (some 55)).1.completed = c.completed) := by
  refine ⟨fun c => rfl, ?_, ?_, ?_, ?_⟩
  · intro c p hp
    simp only [updateProgressHandler]
    rw [if_pos hp]
  · intro c
    simp only [updateProgressHandler]
    rw [if_neg (by norm_num)]
    simp [completeCourse]
  · intro c p h0 h100 hne
    simp only [updateProgressHandler]
    rw [if_neg ?hrange, if_neg hne]
    · rfl
    case hrange =>
      rintro (h | h) <;> linarith
  · intro c
    simp only [updateProgressHandler]
    rw [if_neg (by norm_num), if_neg (by norm_num)]
    rfl

/-- C8 witness: on a 10-percent, not-completed enrollment, 101 is
rejected, 100 completes the course in one update, and 55 updates
progress while leaving `completed = false`. -/
theorem progress_update_rules_witness :
    updateProgressHandler exEnrollment (some 101) =
      (exEnrollment, ProgressResponse.badRequest "Invalid progress value") ∧
    updateProgressHandler exEnrollment (some 100) =
      ({ exEnrollment with completed := true, progress := 100 },
        ProgressResponse.success) ∧
    updateProgressHandler exEnrollment (some 55) =
      ({ exEnrollment with progress := 55 }, ProgressResponse.success) ∧
    (updateProgressHandler exEnrollment (some 55)).1.completed = false := by
  have h55 := progress_update_rules.2.2.2.1 exEnrollment 55
    (by norm_num) (by norm_num) (by norm_num)
  refine ⟨progress_update_rules.2.1 exEnrollment 101 (Or.inr (by norm_num)),
    progress_update_rules.2.2.1 exEnrollment, h55, ?_⟩
  rw [h55]
  rfl

/-- C9 (code bug, structural part).  The fallback quiz concatenates
exactly the two 5-question static banks into a 10-question pool,
reorders it with the random-comparator `sort` (modelled by the
reordering parameter `f` — not a uniform Fisher-Yates shuffle), and
returns the 5-question prefix. -/
theorem fallback_quiz_structure :
    (questionBanks "Web Development").length = 2 ∧
    (fallbackPool "Web Development").length = 10 ∧
    (∀ f : List Question → List Question,
      getFallbackQuiz "Web Development" f =
        ⟨"Web Development", (f (fallbackPool "Web Development")).take 5⟩) ∧
    (getFallbackQuiz "Web Development" id).questions =
      (fallbackPool "Web Development").take 5 ∧
    (getFallbackQuiz "Web Development" id).questions.length = 5 :=
  ⟨rfl, rfl, fun _ => rfl, rfl, rfl⟩

end SkillSphere
